import Mathlib

/-!
Verification of the leader-election helpers of library-go
(`pkg/config/leaderelection`): a shallow embedding of
`ToConfigMapLeaderElection`, `LeaderElectionDefaulting` and
`LeaderElectionSNOConfig`, together with proofs of the spec claims
about them.

Durations are Go `time.Duration` values, i.e. counts of nanoseconds,
modelled as `Nat` (all durations appearing here are non-negative
constants or copies of caller input). External effects (the Kubernetes
client construction, `os.Hostname`, `uuid.NewUUID`, the resource-lock
construction, and the service-account namespace file read) are passed
as explicit parameters: an `Option`/`Bool` describing the outcome the
environment produced.
-/

namespace LibraryGoLeaderElection

/-- One second of Go `time.Duration`, in nanoseconds (`time.Second`). -/
def timeSecond : Nat := 1000000000

/-- Shallow embedding of `configv1.LeaderElection` (openshift/api).
All of its fields are value types in Go: a bool, two strings and three
`metav1.Duration` wrappers around `time.Duration`. The zero value of a
duration field means "unset". -/
structure LeaderElection where
  Disable : Bool := false
  Namespace : String := ""
  Name : String := ""
  LeaseDuration : Nat := 0
  RenewDeadline : Nat := 0
  RetryPeriod : Nat := 0
deriving DecidableEq, Repr

/-- Embedding of the generated `DeepCopy` for `configv1.LeaderElection`:
it copies every field of the value. -/
def LeaderElection.DeepCopy (c : LeaderElection) : LeaderElection :=
  { Disable := c.Disable
    Namespace := c.Namespace
    Name := c.Name
    LeaseDuration := c.LeaseDuration
    RenewDeadline := c.RenewDeadline
    RetryPeriod := c.RetryPeriod }

/-- Models Go `strings.TrimSpace` as applied to the service-account
namespace file: leading and trailing whitespace removed. -/
def trimSpace (s : String) : String := s.trim

/-- The duration-defaulting block of `LeaderElectionDefaulting`
(the three `if ret.X.Duration == 0` statements): an unset
LeaseDuration becomes 137s, an unset RenewDeadline 107s, an unset
RetryPeriod 26s. -/
def defaultDurations (ret : LeaderElection) : LeaderElection :=
  let ret := if ret.LeaseDuration = 0 then { ret with LeaseDuration := 137 * timeSecond } else ret
  let ret := if ret.RenewDeadline = 0 then { ret with RenewDeadline := 107 * timeSecond } else ret
  if ret.RetryPeriod = 0 then { ret with RetryPeriod := 26 * timeSecond } else ret

/-- The namespace-resolution block of `LeaderElectionDefaulting`.
`saNamespaceFile` is the outcome of
`ioutil.ReadFile("/var/run/secrets/kubernetes.io/serviceaccount/namespace")`:
`none` when the read returned an error, `some data` with the file
contents otherwise. -/
def resolveNamespace (ret : LeaderElection) (defaultNamespace : String)
    (saNamespaceFile : Option String) : LeaderElection :=
  if ret.Namespace.length = 0 then
    if defaultNamespace.length > 0 then { ret with Namespace := defaultNamespace }
    else
      match saNamespaceFile with
      | some data =>
          let ns := trimSpace data
          if ns.length > 0 then { ret with Namespace := ns } else ret
      | none => ret
  else ret

/-- The name-resolution statement of `LeaderElectionDefaulting`. -/
def resolveName (ret : LeaderElection) (defaultName : String) : LeaderElection :=
  if ret.Name.length = 0 then { ret with Name := defaultName } else ret

/-- Call frame of `LeaderElectionDefaulting`: Go passes `config` by
value, the body copies it into the local `ret` with `DeepCopy`, and
every subsequent assignment targets `ret`. The first component of the
result is the argument value as the caller sees it when the function
returns; the second is the return value. -/
def LeaderElectionDefaultingFrame (config : LeaderElection)
    (defaultNamespace defaultName : String) (saNamespaceFile : Option String) :
    LeaderElection × LeaderElection :=
  let ret := config.DeepCopy
  let ret := defaultDurations ret
  let ret := resolveNamespace ret defaultNamespace saNamespaceFile
  let ret := resolveName ret defaultName
  (config, ret)

/-- Embedding of `LeaderElectionDefaulting`: the value returned to the
caller. -/
def LeaderElectionDefaulting (config : LeaderElection)
    (defaultNamespace defaultName : String) (saNamespaceFile : Option String) :
    LeaderElection :=
  (LeaderElectionDefaultingFrame config defaultNamespace defaultName saNamespaceFile).2

/-- Call frame of `LeaderElectionSNOConfig`: the body copies the
argument into `ret` and unconditionally assigns all three duration
fields. First component: the caller-visible argument after the call;
second: the return value. -/
def LeaderElectionSNOConfigFrame (config : LeaderElection) :
    LeaderElection × LeaderElection :=
  let ret := config.DeepCopy
  let ret := { ret with LeaseDuration := 270 * timeSecond }
  let ret := { ret with RenewDeadline := 240 * timeSecond }
  let ret := { ret with RetryPeriod := 60 * timeSecond }
  (config, ret)

/-- Embedding of `LeaderElectionSNOConfig`: the value returned to the
caller. -/
def LeaderElectionSNOConfig (config : LeaderElection) : LeaderElection :=
  (LeaderElectionSNOConfigFrame config).2

/-- The downtime-tolerance formula documented in the comment block of
`LeaderElectionDefaulting`:
`lastRetry = floor(renewDeadline/retryPeriod)*retryPeriod` and
`downtimeTolerance = lastRetry - retryPeriod`. -/
def downtimeTolerance (renewDeadline retryPeriod : Nat) : Nat :=
  renewDeadline / retryPeriod * retryPeriod - retryPeriod

/-- Observable effects of a callback body installed by
`ToConfigMapLeaderElection`. -/
inductive Effect where
  | log (msg : String)
  | exitProcess (code : Nat)
deriving DecidableEq, Repr

/-- Body of the `OnStoppedLeading` callback installed by
`ToConfigMapLeaderElection`: `klog.Warningf("leader election lost")`
executes first, then the deferred `os.Exit(0)` runs when the function
returns. The trace is unconditional: the body has no branches. -/
def onStoppedLeadingBody : List Effect :=
  [Effect.log "leader election lost", Effect.exitProcess 0]

/-- The configmaps resource lock built by `resourcelock.New` inside the
constructor: the identifying data the constructor passes to it. -/
structure ResourceLock where
  Namespace : String
  Name : String
  Identity : String
deriving DecidableEq, Repr

/-- Embedding of the fields of `leaderelection.LeaderElectionConfig`
(client-go) that the constructor fills in. The `OnStoppedLeading`
callback is represented by its effect trace. -/
structure LeaderElectionConfig where
  Lock : ResourceLock
  ReleaseOnCancel : Bool
  LeaseDuration : Nat
  RenewDeadline : Nat
  RetryPeriod : Nat
  OnStoppedLeading : List Effect
deriving DecidableEq, Repr

/-- The distinct error exits of `ToConfigMapLeaderElection`, in source
order: the error from `kubernetes.NewForConfig`, the
`"namespace may not be empty"` and `"name may not be empty"`
validation errors, and the error from `resourcelock.New`. -/
inductive ConstructorError where
  | clientConfigError
  | namespaceMayNotBeEmpty
  | nameMayNotBeEmpty
  | resourceLockError
deriving DecidableEq, Repr

/-- The identity-computation block of `ToConfigMapLeaderElection`
(the `if len(identity) == 0` statement). `hostname` is the outcome of
`os.Hostname()` (`none` on error), `uuid` the string form of
`uuid.NewUUID()`. The block never produces an error: on hostname
failure it falls back to the uuid alone. -/
def computeIdentity (identity : String) (hostname : Option String)
    (uuid : String) : String :=
  if identity.length = 0 then
    match hostname with
    | none => uuid
    | some h => h ++ "_" ++ uuid
  else identity

/-- Embedding of `ToConfigMapLeaderElection`. The environment outcomes
are explicit parameters: `clientOk` is whether `kubernetes.NewForConfig`
succeeded, `hostname` the outcome of `os.Hostname()`, `uuid` the value
of `uuid.NewUUID()`, and `lockOk` whether `resourcelock.New` succeeded.
On any error the Go function returns the zero `LeaderElectionConfig`
together with a non-nil error, modelled by `Except.error`. The
`component` argument only labels the event recorder and does not affect
the result. -/
def ToConfigMapLeaderElection (config : LeaderElection)
    (component identity : String) (clientOk : Bool)
    (hostname : Option String) (uuid : String) (lockOk : Bool) :
    Except ConstructorError LeaderElectionConfig :=
  if !clientOk then Except.error ConstructorError.clientConfigError
  else
    let identity := computeIdentity identity hostname uuid
    if config.Namespace.length = 0 then
      Except.error ConstructorError.namespaceMayNotBeEmpty
    else if config.Name.length = 0 then
      Except.error ConstructorError.nameMayNotBeEmpty
    else if !lockOk then Except.error ConstructorError.resourceLockError
    else Except.ok
      { Lock := { Namespace := config.Namespace, Name := config.Name
                  Identity := identity }
        ReleaseOnCancel := true
        LeaseDuration := config.LeaseDuration
        RenewDeadline := config.RenewDeadline
        RetryPeriod := config.RetryPeriod
        OnStoppedLeading := onStoppedLeadingBody }

/-- A concrete input config with both identifying fields set and all
duration fields unset (zero). -/
def sampleInputZero : LeaderElection := { Namespace := "ns", Name := "nm" }

/-- A concrete input config with both identifying fields set and
explicit durations. -/
def sampleInputDur : LeaderElection :=
  { Namespace := "ns", Name := "nm", LeaseDuration := 5, RenewDeadline := 4
    RetryPeriod := 3 }

/-- The config the constructor produces from `sampleInputZero` with
caller identity "id". -/
def sampleOkZero : LeaderElectionConfig :=
  { Lock := { Namespace := "ns", Name := "nm", Identity := "id" }
    ReleaseOnCancel := true
    LeaseDuration := 0
    RenewDeadline := 0
    RetryPeriod := 0
    OnStoppedLeading := onStoppedLeadingBody }

/-- The config the constructor produces from `sampleInputDur` with
caller identity "id". -/
def sampleOkDur : LeaderElectionConfig :=
  { Lock := { Namespace := "ns", Name := "nm", Identity := "id" }
    ReleaseOnCancel := true
    LeaseDuration := 5
    RenewDeadline := 4
    RetryPeriod := 3
    OnStoppedLeading := onStoppedLeadingBody }

/-! Helper lemmas. -/

theorem string_length_eq_zero (s : String) : s.length = 0 ↔ s = "" := by
  obtain ⟨data⟩ := s
  constructor
  · intro h
    have : data = [] := by simpa [String.length] using h
    simp [this]
  · intro h
    simp [h]

theorem defaultDurations_spec (r : LeaderElection) :
    (defaultDurations r).LeaseDuration
      = (if r.LeaseDuration = 0 then 137 * timeSecond else r.LeaseDuration)
    ∧ (defaultDurations r).RenewDeadline
      = (if r.RenewDeadline = 0 then 107 * timeSecond else r.RenewDeadline)
    ∧ (defaultDurations r).RetryPeriod
      = (if r.RetryPeriod = 0 then 26 * timeSecond else r.RetryPeriod)
    ∧ (defaultDurations r).Namespace = r.Namespace
    ∧ (defaultDurations r).Name = r.Name
    ∧ (defaultDurations r).Disable = r.Disable := by
  by_cases h1 : r.LeaseDuration = 0 <;> by_cases h2 : r.RenewDeadline = 0 <;>
    by_cases h3 : r.RetryPeriod = 0 <;> simp [defaultDurations, h1, h2, h3]

theorem resolveNamespace_preserves (r : LeaderElection) (dns : String)
    (f : Option String) :
    (resolveNamespace r dns f).LeaseDuration = r.LeaseDuration
    ∧ (resolveNamespace r dns f).RenewDeadline = r.RenewDeadline
    ∧ (resolveNamespace r dns f).RetryPeriod = r.RetryPeriod
    ∧ (resolveNamespace r dns f).Name = r.Name
    ∧ (resolveNamespace r dns f).Disable = r.Disable := by
  by_cases h1 : r.Namespace.length = 0 <;> by_cases h2 : dns.length > 0 <;>
    cases f <;> simp [resolveNamespace, h1, h2] <;> split <;> simp

theorem resolveName_preserves (r : LeaderElection) (dn : String) :
    (resolveName r dn).LeaseDuration = r.LeaseDuration
    ∧ (resolveName r dn).RenewDeadline = r.RenewDeadline
    ∧ (resolveName r dn).RetryPeriod = r.RetryPeriod
    ∧ (resolveName r dn).Namespace = r.Namespace
    ∧ (resolveName r dn).Disable = r.Disable := by
  by_cases h : r.Name.length = 0 <;> simp [resolveName, h]

theorem DeepCopy_eq (c : LeaderElection) : c.DeepCopy = c := rfl

theorem LeaderElectionDefaulting_durations (config : LeaderElection)
    (dns dn : String) (f : Option String) :
    (LeaderElectionDefaulting config dns dn f).LeaseDuration
      = (if config.LeaseDuration = 0 then 137 * timeSecond else config.LeaseDuration)
    ∧ (LeaderElectionDefaulting config dns dn f).RenewDeadline
      = (if config.RenewDeadline = 0 then 107 * timeSecond else config.RenewDeadline)
    ∧ (LeaderElectionDefaulting config dns dn f).RetryPeriod
      = (if config.RetryPeriod = 0 then 26 * timeSecond else config.RetryPeriod) := by
  have hd := defaultDurations_spec config
  have hns := resolveNamespace_preserves (defaultDurations config.DeepCopy) dns f
  have hn := resolveName_preserves
    (resolveNamespace (defaultDurations config.DeepCopy) dns f) dn
  simp only [LeaderElectionDefaulting, LeaderElectionDefaultingFrame, DeepCopy_eq] at *
  refine ⟨?_, ?_, ?_⟩ <;> simp_all

theorem LeaderElectionSNOConfig_durations (config : LeaderElection) :
    (LeaderElectionSNOConfig config).LeaseDuration = 270 * timeSecond
    ∧ (LeaderElectionSNOConfig config).RenewDeadline = 240 * timeSecond
    ∧ (LeaderElectionSNOConfig config).RetryPeriod = 60 * timeSecond := by
  simp [LeaderElectionSNOConfig, LeaderElectionSNOConfigFrame]

theorem resolveNamespace_namespace (r : LeaderElection) (dns : String)
    (f : Option String) :
    (resolveNamespace r dns f).Namespace =
      if r.Namespace.length ≠ 0 then r.Namespace
      else if dns.length ≠ 0 then dns
      else
        match f with
        | some data =>
            if (trimSpace data).length ≠ 0 then trimSpace data else r.Namespace
        | none => r.Namespace := by
  by_cases h1 : r.Namespace.length = 0 <;> by_cases h2 : dns.length = 0 <;>
    cases f <;>
    simp [resolveNamespace, h1, h2, Nat.pos_iff_ne_zero] <;>
    split <;> simp_all

theorem ToConfigMapLeaderElection_ok_iff (config : LeaderElection)
    (component identity : String) (clientOk : Bool) (hostname : Option String)
    (uuid : String) (lockOk : Bool) (cfg : LeaderElectionConfig) :
    ToConfigMapLeaderElection config component identity clientOk hostname uuid lockOk
      = Except.ok cfg ↔
    clientOk = true ∧ config.Namespace.length ≠ 0 ∧ config.Name.length ≠ 0
      ∧ lockOk = true
      ∧ cfg = { Lock := { Namespace := config.Namespace, Name := config.Name
                          Identity := computeIdentity identity hostname uuid }
                ReleaseOnCancel := true
                LeaseDuration := config.LeaseDuration
                RenewDeadline := config.RenewDeadline
                RetryPeriod := config.RetryPeriod
                OnStoppedLeading := onStoppedLeadingBody } := by
  cases clientOk <;> by_cases h1 : config.Namespace.length = 0 <;>
    by_cases h2 : config.Name.length = 0 <;> cases lockOk <;>
    simp [ToConfigMapLeaderElection, h1, h2, eq_comm]

/-! Claim theorems. -/

/-- C1 counterexample: the claim says neither defaulting function ever
overwrites a non-zero duration field, but `LeaderElectionSNOConfig`
overwrites an explicitly set (non-zero) LeaseDuration of 1ns with 270s. -/
theorem C1_sno_overwrites_counterexample :
    ({ Namespace := "ns", Name := "nm", LeaseDuration := 1, RenewDeadline := 2,
       RetryPeriod := 3 : LeaderElection }).LeaseDuration ≠ 0
    ∧ (LeaderElectionSNOConfig
        { Namespace := "ns", Name := "nm", LeaseDuration := 1, RenewDeadline := 2,
          RetryPeriod := 3 }).LeaseDuration
      ≠ ({ Namespace := "ns", Name := "nm", LeaseDuration := 1, RenewDeadline := 2,
           RetryPeriod := 3 : LeaderElection }).LeaseDuration := by decide

/-- C1 amended: `LeaderElectionDefaulting` fills exactly the zero-valued
duration fields (LeaseDuration 137s, RenewDeadline 107s, RetryPeriod 26s)
and never overwrites a non-zero one, while `LeaderElectionSNOConfig`
unconditionally sets all three duration fields to the single-node values
270s/240s/60s regardless of the input. -/
theorem C1_duration_fields_amended (config : LeaderElection) (dns dn : String)
    (f : Option String) :
    ((LeaderElectionDefaulting config dns dn f).LeaseDuration
      = (if config.LeaseDuration = 0 then 137 * timeSecond else config.LeaseDuration)
    ∧ (LeaderElectionDefaulting config dns dn f).RenewDeadline
      = (if config.RenewDeadline = 0 then 107 * timeSecond else config.RenewDeadline)
    ∧ (LeaderElectionDefaulting config dns dn f).RetryPeriod
      = (if config.RetryPeriod = 0 then 26 * timeSecond else config.RetryPeriod))
    ∧ ((LeaderElectionSNOConfig config).LeaseDuration = 270 * timeSecond
    ∧ (LeaderElectionSNOConfig config).RenewDeadline = 240 * timeSecond
    ∧ (LeaderElectionSNOConfig config).RetryPeriod = 60 * timeSecond) :=
  ⟨LeaderElectionDefaulting_durations config dns dn f,
   LeaderElectionSNOConfig_durations config⟩

/-- C2: for an input whose three duration fields are all zero, the
configs produced by both `LeaderElectionDefaulting` and
`LeaderElectionSNOConfig` satisfy
0 < RetryPeriod < RenewDeadline < LeaseDuration. -/
theorem C2_resolved_ordering (config : LeaderElection) (dns dn : String)
    (f : Option String) (h1 : config.LeaseDuration = 0)
    (h2 : config.RenewDeadline = 0) (h3 : config.RetryPeriod = 0) :
    (0 < (LeaderElectionDefaulting config dns dn f).RetryPeriod
      ∧ (LeaderElectionDefaulting config dns dn f).RetryPeriod
        < (LeaderElectionDefaulting config dns dn f).RenewDeadline
      ∧ (LeaderElectionDefaulting config dns dn f).RenewDeadline
        < (LeaderElectionDefaulting config dns dn f).LeaseDuration)
    ∧ (0 < (LeaderElectionSNOConfig config).RetryPeriod
      ∧ (LeaderElectionSNOConfig config).RetryPeriod
        < (LeaderElectionSNOConfig config).RenewDeadline
      ∧ (LeaderElectionSNOConfig config).RenewDeadline
        < (LeaderElectionSNOConfig config).LeaseDuration) := by
  obtain ⟨d1, d2, d3⟩ := LeaderElectionDefaulting_durations config dns dn f
  obtain ⟨s1, s2, s3⟩ := LeaderElectionSNOConfig_durations config
  rw [d1, d2, d3, s1, s2, s3, h1, h2, h3]
  norm_num [timeSecond]

/-- C2 witness: the all-zero (fully unset) config. -/
theorem C2_resolved_ordering_witness :
    (0 < (LeaderElectionDefaulting {} "wns" "wnm" none).RetryPeriod
      ∧ (LeaderElectionDefaulting {} "wns" "wnm" none).RetryPeriod
        < (LeaderElectionDefaulting {} "wns" "wnm" none).RenewDeadline
      ∧ (LeaderElectionDefaulting {} "wns" "wnm" none).RenewDeadline
        < (LeaderElectionDefaulting {} "wns" "wnm" none).LeaseDuration)
    ∧ (0 < (LeaderElectionSNOConfig {}).RetryPeriod
      ∧ (LeaderElectionSNOConfig {}).RetryPeriod
        < (LeaderElectionSNOConfig {}).RenewDeadline
      ∧ (LeaderElectionSNOConfig {}).RenewDeadline
        < (LeaderElectionSNOConfig {}).LeaseDuration) :=
  C2_resolved_ordering {} "wns" "wnm" none rfl rfl rfl

/-- C3: the fully defaulted standard profile is 137s/107s/26s and its
downtime tolerance, computed by the floor-based formula from the source
comment, is exactly 78s; the single-node profile is 270s/240s/60s with
tolerance exactly 180s. -/
theorem C3_downtime_tolerance :
    (LeaderElectionDefaulting {} "" "" none).LeaseDuration = 137 * timeSecond
    ∧ (LeaderElectionDefaulting {} "" "" none).RenewDeadline = 107 * timeSecond
    ∧ (LeaderElectionDefaulting {} "" "" none).RetryPeriod = 26 * timeSecond
    ∧ downtimeTolerance (LeaderElectionDefaulting {} "" "" none).RenewDeadline
        (LeaderElectionDefaulting {} "" "" none).RetryPeriod = 78 * timeSecond
    ∧ (LeaderElectionSNOConfig {}).LeaseDuration = 270 * timeSecond
    ∧ (LeaderElectionSNOConfig {}).RenewDeadline = 240 * timeSecond
    ∧ (LeaderElectionSNOConfig {}).RetryPeriod = 60 * timeSecond
    ∧ downtimeTolerance (LeaderElectionSNOConfig {}).RenewDeadline
        (LeaderElectionSNOConfig {}).RetryPeriod = 180 * timeSecond := by decide

/-- C4: `LeaderElectionDefaulting` resolves the Namespace with this
precedence: the explicit input field if non-empty, else the fallback
namespace argument if non-empty, else the trimmed contents of the
service-account namespace file if the read succeeded and the trimmed
contents are non-empty, else the Namespace is left empty. -/
theorem C4_namespace_precedence (config : LeaderElection) (dns dn : String)
    (f : Option String) :
    (LeaderElectionDefaulting config dns dn f).Namespace =
      if config.Namespace.length ≠ 0 then config.Namespace
      else if dns.length ≠ 0 then dns
      else
        match f with
        | some data =>
            if (trimSpace data).length ≠ 0 then trimSpace data else ""
        | none => "" := by
  have hdd : (defaultDurations config).Namespace = config.Namespace :=
    (defaultDurations_spec config).2.2.2.1
  have hrn : ∀ r, (resolveName r dn).Namespace = r.Namespace :=
    fun r => (resolveName_preserves r dn).2.2.2.1
  have hns := resolveNamespace_namespace (defaultDurations config) dns f
  simp only [LeaderElectionDefaulting, LeaderElectionDefaultingFrame,
    DeepCopy_eq, hrn, hns, hdd]
  by_cases h1 : config.Namespace.length = 0
  · have he : config.Namespace = "" := (string_length_eq_zero _).mp h1
    cases f <;> simp [h1, he]
  · simp [h1]

/-- C5: when the Kubernetes client construction succeeds, an empty
resolved Namespace or Name makes `ToConfigMapLeaderElection` return the
corresponding validation error immediately (the zero config plus an
error, no retry); when both are non-empty, neither validation error can
be returned, whatever the environment outcomes. -/
theorem C5_constructor_validation (config : LeaderElection)
    (component identity : String) (hostname : Option String) (uuid : String)
    (lockOk : Bool) :
    ((config.Namespace.length = 0 ∨ config.Name.length = 0) →
      ∃ e, ToConfigMapLeaderElection config component identity true hostname uuid lockOk
          = Except.error e
        ∧ (e = ConstructorError.namespaceMayNotBeEmpty
          ∨ e = ConstructorError.nameMayNotBeEmpty))
    ∧ (config.Namespace.length ≠ 0 → config.Name.length ≠ 0 → ∀ clientOk,
      ToConfigMapLeaderElection config component identity clientOk hostname uuid lockOk
        ≠ Except.error ConstructorError.namespaceMayNotBeEmpty
      ∧ ToConfigMapLeaderElection config component identity clientOk hostname uuid lockOk
        ≠ Except.error ConstructorError.nameMayNotBeEmpty) := by
  constructor
  · intro h
    by_cases hns : config.Namespace.length = 0
    · exact ⟨ConstructorError.namespaceMayNotBeEmpty,
        by simp [ToConfigMapLeaderElection, hns], Or.inl rfl⟩
    · have hnm : config.Name.length = 0 := h.resolve_left hns
      exact ⟨ConstructorError.nameMayNotBeEmpty,
        by simp [ToConfigMapLeaderElection, hns, hnm], Or.inr rfl⟩
  · intro hns hnm clientOk
    cases clientOk <;> cases hl : lockOk <;>
      simp [ToConfigMapLeaderElection, hns, hnm]

/-- C5 witness: an input with empty Namespace is rejected with a
validation error, and an input with both fields set never produces a
validation error. -/
theorem C5_constructor_validation_witness :
    (∃ e, ToConfigMapLeaderElection { Name := "nm" } "cmp" "id" true none "u" true
        = Except.error e
      ∧ (e = ConstructorError.namespaceMayNotBeEmpty
        ∨ e = ConstructorError.nameMayNotBeEmpty))
    ∧ (ToConfigMapLeaderElection { Namespace := "ns", Name := "nm" } "cmp" "id"
          true none "u" true
        ≠ Except.error ConstructorError.namespaceMayNotBeEmpty
      ∧ ToConfigMapLeaderElection { Namespace := "ns", Name := "nm" } "cmp" "id"
          true none "u" true
        ≠ Except.error ConstructorError.nameMayNotBeEmpty) :=
  ⟨(C5_constructor_validation { Name := "nm" } "cmp" "id" none "u" true).1
      (Or.inl (by decide)),
   (C5_constructor_validation { Namespace := "ns", Name := "nm" } "cmp" "id"
      none "u" true).2 (by decide) (by decide) true⟩

/-- C6: with an empty caller-supplied identity, the computed holder
identity is hostname ++ "_" ++ uuid when the hostname read succeeds and
the uuid alone on failure; it is non-empty whenever the uuid is, and
`computeIdentity` is total, so a hostname failure never surfaces as an
error to the caller. -/
theorem C6_identity_generation (hostname : Option String) (uuid h : String) :
    (hostname = some h → computeIdentity "" hostname uuid = h ++ "_" ++ uuid)
    ∧ (hostname = none → computeIdentity "" hostname uuid = uuid)
    ∧ (uuid ≠ "" → computeIdentity "" hostname uuid ≠ "") := by
  refine ⟨fun hh => ?_, fun hh => ?_, fun hu => ?_⟩
  · subst hh; simp [computeIdentity]
  · subst hh; simp [computeIdentity]
  · cases hostname with
    | none => simpa [computeIdentity] using hu
    | some h2 =>
        simp only [computeIdentity, String.length, if_pos]
        intro heq
        have hlen := congrArg String.length heq
        simp [String.length_append] at hlen
        exact absurd hlen.1.2 (by decide)

/-- C6 witness: concrete hostname-success and hostname-failure runs. -/
theorem C6_identity_generation_witness :
    (computeIdentity "" (some "host") "uid" = "host" ++ "_" ++ "uid")
    ∧ (computeIdentity "" none "uid" = "uid")
    ∧ (computeIdentity "" (some "host") "uid" ≠ "") :=
  ⟨(C6_identity_generation (some "host") "uid" "host").1 rfl,
   (C6_identity_generation none "uid" "host").2.1 rfl,
   (C6_identity_generation (some "host") "uid" "host").2.2 (by decide)⟩

/-- C7: every config the constructor returns carries the OnStoppedLeading
callback whose unconditional effect trace is log-then-exit; the process
exit is the final effect of the trace, so no further action of this
attempt follows it. -/
theorem C7_on_stopped_leading_exits (config : LeaderElection)
    (component identity : String) (clientOk : Bool) (hostname : Option String)
    (uuid : String) (lockOk : Bool) (cfg : LeaderElectionConfig)
    (h : ToConfigMapLeaderElection config component identity clientOk hostname uuid lockOk
        = Except.ok cfg) :
    cfg.OnStoppedLeading = onStoppedLeadingBody
    ∧ onStoppedLeadingBody.getLast? = some (Effect.exitProcess 0) := by
  obtain ⟨-, -, -, -, hc⟩ :=
    (ToConfigMapLeaderElection_ok_iff config component identity clientOk
      hostname uuid lockOk cfg).mp h
  subst hc
  exact ⟨rfl, rfl⟩

/-- C7 witness: a successful run of the constructor. -/
theorem C7_on_stopped_leading_exits_witness :
    sampleOkZero.OnStoppedLeading = onStoppedLeadingBody
    ∧ onStoppedLeadingBody.getLast? = some (Effect.exitProcess 0) :=
  C7_on_stopped_leading_exits sampleInputZero "cmp" "id" true none "u" true
    sampleOkZero rfl

/-- C8: both defaulting functions leave the caller-passed argument
unchanged in every field — Go passes the config by value and each body
writes only to its DeepCopy-ed local — and DeepCopy itself reproduces
every field of its input. -/
theorem C8_no_caller_mutation (config : LeaderElection) (dns dn : String)
    (f : Option String) :
    (LeaderElectionDefaultingFrame config dns dn f).1 = config
    ∧ (LeaderElectionSNOConfigFrame config).1 = config
    ∧ config.DeepCopy = config :=
  ⟨rfl, rfl, rfl⟩

/-- C9: every config the constructor returns has ReleaseOnCancel set to
true. -/
theorem C9_release_on_cancel (config : LeaderElection)
    (component identity : String) (clientOk : Bool) (hostname : Option String)
    (uuid : String) (lockOk : Bool) (cfg : LeaderElectionConfig)
    (h : ToConfigMapLeaderElection config component identity clientOk hostname uuid lockOk
        = Except.ok cfg) :
    cfg.ReleaseOnCancel = true := by
  obtain ⟨-, -, -, -, hc⟩ :=
    (ToConfigMapLeaderElection_ok_iff config component identity clientOk
      hostname uuid lockOk cfg).mp h
  subst hc
  rfl

/-- C9 witness: a successful run of the constructor. -/
theorem C9_release_on_cancel_witness : sampleOkDur.ReleaseOnCancel = true :=
  C9_release_on_cancel sampleInputDur "cmp" "id" true none "u" true
    sampleOkDur rfl

/-- C10: the constructor does no duration defaulting and no timing
validation — on success the returned LeaseDuration, RenewDeadline and
RetryPeriod are the input values verbatim. -/
theorem C10_durations_passthrough (config : LeaderElection)
    (component identity : String) (clientOk : Bool) (hostname : Option String)
    (uuid : String) (lockOk : Bool) (cfg : LeaderElectionConfig)
    (h : ToConfigMapLeaderElection config component identity clientOk hostname uuid lockOk
        = Except.ok cfg) :
    cfg.LeaseDuration = config.LeaseDuration
    ∧ cfg.RenewDeadline = config.RenewDeadline
    ∧ cfg.RetryPeriod = config.RetryPeriod := by
  obtain ⟨-, -, -, -, hc⟩ :=
    (ToConfigMapLeaderElection_ok_iff config component identity clientOk
      hostname uuid lockOk cfg).mp h
  subst hc
  exact ⟨rfl, rfl, rfl⟩

/-- C10 witness: a config with all-zero (invariant-violating) durations
passes through the constructor unchanged and without error. -/
theorem C10_durations_passthrough_witness :
    sampleOkZero.LeaseDuration = sampleInputZero.LeaseDuration
    ∧ sampleOkZero.RenewDeadline = sampleInputZero.RenewDeadline
    ∧ sampleOkZero.RetryPeriod = sampleInputZero.RetryPeriod :=
  C10_durations_passthrough sampleInputZero "cmp" "id" true none "u" true
    sampleOkZero rfl

end LibraryGoLeaderElection
